import Mathlib

/-
Verification development for the vaapi-vulkan-video-driver repository
(crate va_vulkanvideo, file src/lib.rs).

The Rust source is shallowly embedded below.  Untrusted raw pointers are
modelled by a record carrying the null flag, the alignment flag, and the
pointee value; machine integers are modelled by Nat/Int with explicit
wrap-around where the source performs a lossy cast; stateful handlers are
modelled as functions returning the final context content together with the
trace of the observable effects (log events and writes through the caller's
out-pointers); fallible external calls (Vulkan, file metadata) are supplied
through an explicit environment record.
-/

set_option autoImplicit false

namespace VaVk

/-! ## Host contract constants (va_backend_sys)

The va_backend_sys crate is generated at build time by bindgen from the
libva headers; the numeric values below are the published libva values that
generation reproduces (the spec requires bit-exact compatibility with the
host's published code values). -/

def VA_STATUS_SUCCESS : Int := 0
def VA_STATUS_ERROR_OPERATION_FAILED : Int := 1
def VA_STATUS_ERROR_ALLOCATION_FAILED : Int := 2
def VA_STATUS_ERROR_INVALID_DISPLAY : Int := 3
def VA_STATUS_ERROR_INVALID_CONFIG : Int := 4
def VA_STATUS_ERROR_INVALID_CONTEXT : Int := 5
def VA_STATUS_ERROR_INVALID_SURFACE : Int := 6
def VA_STATUS_ERROR_INVALID_BUFFER : Int := 7
def VA_STATUS_ERROR_INVALID_IMAGE : Int := 8
def VA_STATUS_ERROR_INVALID_SUBPICTURE : Int := 9
def VA_STATUS_ERROR_ATTR_NOT_SUPPORTED : Int := 10
def VA_STATUS_ERROR_MAX_NUM_EXCEEDED : Int := 11
def VA_STATUS_ERROR_UNSUPPORTED_PROFILE : Int := 12
def VA_STATUS_ERROR_UNSUPPORTED_ENTRYPOINT : Int := 13
def VA_STATUS_ERROR_UNSUPPORTED_RT_FORMAT : Int := 14
def VA_STATUS_ERROR_UNSUPPORTED_BUFFERTYPE : Int := 15
def VA_STATUS_ERROR_SURFACE_BUSY : Int := 16
def VA_STATUS_ERROR_FLAG_NOT_SUPPORTED : Int := 17
def VA_STATUS_ERROR_INVALID_PARAMETER : Int := 18
def VA_STATUS_ERROR_RESOLUTION_NOT_SUPPORTED : Int := 19
def VA_STATUS_ERROR_UNIMPLEMENTED : Int := 20
def VA_STATUS_ERROR_SURFACE_IN_DISPLAYING : Int := 21
def VA_STATUS_ERROR_INVALID_IMAGE_FORMAT : Int := 22
def VA_STATUS_ERROR_DECODING_ERROR : Int := 23
def VA_STATUS_ERROR_ENCODING_ERROR : Int := 24

/-- VAProfile enumeration values, as published by the libva headers. -/
def VAProfileNone : Int := -1
def VAProfileMPEG2Simple : Int := 0
def VAProfileMPEG2Main : Int := 1
def VAProfileMPEG4Simple : Int := 2
def VAProfileMPEG4AdvancedSimple : Int := 3
def VAProfileMPEG4Main : Int := 4
def VAProfileH264Baseline : Int := 5
def VAProfileH264Main : Int := 6
def VAProfileH264High : Int := 7
def VAProfileVC1Simple : Int := 8
def VAProfileVC1Main : Int := 9
def VAProfileVC1Advanced : Int := 10
def VAProfileH263Baseline : Int := 11
def VAProfileJPEGBaseline : Int := 12
def VAProfileH264ConstrainedBaseline : Int := 13
def VAProfileVP8Version0_3 : Int := 14
def VAProfileH264MultiviewHigh : Int := 15
def VAProfileH264StereoHigh : Int := 16
def VAProfileHEVCMain : Int := 17
def VAProfileHEVCMain10 : Int := 18
def VAProfileVP9Profile0 : Int := 19
def VAProfileVP9Profile1 : Int := 20
def VAProfileVP9Profile2 : Int := 21
def VAProfileVP9Profile3 : Int := 22
def VAProfileHEVCMain12 : Int := 23
def VAProfileHEVCMain422_10 : Int := 24
def VAProfileHEVCMain422_12 : Int := 25
def VAProfileHEVCMain444 : Int := 26
def VAProfileHEVCMain444_10 : Int := 27
def VAProfileHEVCMain444_12 : Int := 28
def VAProfileHEVCSccMain : Int := 29
def VAProfileHEVCSccMain10 : Int := 30
def VAProfileHEVCSccMain444 : Int := 31
def VAProfileAV1Profile0 : Int := 32
def VAProfileAV1Profile1 : Int := 33
def VAProfileHEVCSccMain444_10 : Int := 34
def VAProfileProtected : Int := 35
def VAProfileH264High10 : Int := 36
def VAProfileVVCMain10 : Int := 37
def VAProfileVVCMultilayerMain10 : Int := 38

/-- VAEntrypoint values from the libva headers (only the two the driver emits). -/
def VAEntrypointVLD : Int := 1
def VAEntrypointEncSlice : Int := 6

/-- Vulkan VK_TRUE (vk::Bool32 fields are u32, compared against this). -/
def VK_TRUE : Nat := 1

/-- VkResult VK_ERROR_INITIALIZATION_FAILED. -/
def VK_ERROR_INITIALIZATION_FAILED : Int := -3

/-- Vulkan queue flag bit VK_QUEUE_TRANSFER_BIT. -/
def QUEUE_TRANSFER : Nat := 4

/-- Vulkan queue flag bit VK_QUEUE_VIDEO_DECODE_BIT_KHR. -/
def QUEUE_VIDEO_DECODE : Nat := 32

/-- Vendor string VENDOR of src/lib.rs. -/
def VENDOR : String := "va_vulkan_video"

/-! ## Error taxonomy (enum VaError of src/lib.rs) -/

/-- Internal error enumeration VaError; each variant carries the VAStatus it
converts to via the From impl (err as VAStatus). -/
inductive VaError where
  | OperationFailed
  | AllocationFailed
  | InvalidDisplay
  | InvalidConfig
  | InvalidContext
  | InvalidSurface
  | InvalidBuffer
  | InvalidImage
  | InvalidSubpicture
  | AttrNotSupported
  | MaxNumExceeded
  | UnsupportedProfile
  | UnsupportedEntrypoint
  | UnsupportedRtformat
  | UnsupportedBuffertype
  | SurfaceBusy
  | FlagNotSupported
  | InvalidParameter
  | ResolutionNotSupported
  | Unimplemented
  | SurfaceInDisplaying
  | InvalidImageFormat
  | DecodingError
  | EncodingError
deriving DecidableEq

/-- The From(VaError) for VAStatus conversion (the repr(i32) discriminants). -/
def VaError.toStatus : VaError → Int
  | .OperationFailed => VA_STATUS_ERROR_OPERATION_FAILED
  | .AllocationFailed => VA_STATUS_ERROR_ALLOCATION_FAILED
  | .InvalidDisplay => VA_STATUS_ERROR_INVALID_DISPLAY
  | .InvalidConfig => VA_STATUS_ERROR_INVALID_CONFIG
  | .InvalidContext => VA_STATUS_ERROR_INVALID_CONTEXT
  | .InvalidSurface => VA_STATUS_ERROR_INVALID_SURFACE
  | .InvalidBuffer => VA_STATUS_ERROR_INVALID_BUFFER
  | .InvalidImage => VA_STATUS_ERROR_INVALID_IMAGE
  | .InvalidSubpicture => VA_STATUS_ERROR_INVALID_SUBPICTURE
  | .AttrNotSupported => VA_STATUS_ERROR_ATTR_NOT_SUPPORTED
  | .MaxNumExceeded => VA_STATUS_ERROR_MAX_NUM_EXCEEDED
  | .UnsupportedProfile => VA_STATUS_ERROR_UNSUPPORTED_PROFILE
  | .UnsupportedEntrypoint => VA_STATUS_ERROR_UNSUPPORTED_ENTRYPOINT
  | .UnsupportedRtformat => VA_STATUS_ERROR_UNSUPPORTED_RT_FORMAT
  | .UnsupportedBuffertype => VA_STATUS_ERROR_UNSUPPORTED_BUFFERTYPE
  | .SurfaceBusy => VA_STATUS_ERROR_SURFACE_BUSY
  | .FlagNotSupported => VA_STATUS_ERROR_FLAG_NOT_SUPPORTED
  | .InvalidParameter => VA_STATUS_ERROR_INVALID_PARAMETER
  | .ResolutionNotSupported => VA_STATUS_ERROR_RESOLUTION_NOT_SUPPORTED
  | .Unimplemented => VA_STATUS_ERROR_UNIMPLEMENTED
  | .SurfaceInDisplaying => VA_STATUS_ERROR_SURFACE_IN_DISPLAYING
  | .InvalidImageFormat => VA_STATUS_ERROR_INVALID_IMAGE_FORMAT
  | .DecodingError => VA_STATUS_ERROR_DECODING_ERROR
  | .EncodingError => VA_STATUS_ERROR_ENCODING_ERROR

/-! ## Machine-integer casts -/

/-- The Rust cast `(x : c_int) as usize` on a 64-bit target: sign-extend and
reinterpret, i.e. reduce modulo 2^64.  Negative values wrap to huge values. -/
def usizeCast (m : Int) : Nat := (m % (2 ^ 64 : Int)).toNat

/-! ## Codec support model (Codec, Operation, SupportedCodecs of src/lib.rs) -/

inductive Codec where
  | H264
  | H265
  | Vp9
  | Av1
deriving DecidableEq

inductive Operation where
  | Decode
  | Encode
deriving DecidableEq

/-- struct SupportedCodecs (one flag per codec/operation pair; VP9 encode is
structurally absent). Default() is all-false. -/
structure SupportedCodecs where
  h264_decode : Bool
  h265_decode : Bool
  vp9_decode : Bool
  av1_decode : Bool
  h264_encode : Bool
  h265_encode : Bool
  av1_encode : Bool
deriving DecidableEq

/-- SupportedCodecs::default(): every flag false. -/
def SupportedCodecs.mkDefault : SupportedCodecs :=
  ⟨false, false, false, false, false, false, false⟩

/-! ## Profile list construction (va_query_config_profiles, lines 72-95) -/

/-- The profile sequence built by va_query_config_profiles from the
SupportedCodecs flags (the Vec::push sequence of src/lib.rs lines 76-95). -/
def supportedProfilesList (codecs : SupportedCodecs) : List Int := Id.run do
  let mut supported_profiles : List Int := []
  if codecs.h264_decode || codecs.h264_encode then
    supported_profiles := supported_profiles.concat VAProfileH264ConstrainedBaseline
    supported_profiles := supported_profiles.concat VAProfileH264Main
    supported_profiles := supported_profiles.concat VAProfileH264High
  if codecs.h265_decode || codecs.h265_encode then
    supported_profiles := supported_profiles.concat VAProfileHEVCMain
    supported_profiles := supported_profiles.concat VAProfileHEVCMain10
  if codecs.av1_decode || codecs.av1_encode then
    supported_profiles := supported_profiles.concat VAProfileAV1Profile0
    supported_profiles := supported_profiles.concat VAProfileAV1Profile1
  if codecs.vp9_decode then
    supported_profiles := supported_profiles.concat VAProfileVP9Profile0
    supported_profiles := supported_profiles.concat VAProfileVP9Profile1
    supported_profiles := supported_profiles.concat VAProfileVP9Profile2
    supported_profiles := supported_profiles.concat VAProfileVP9Profile3
  return supported_profiles

/-- Modelled from the spec (claim C4 wording): the emitted profile sequence,
written as the concatenation of the four codec groups in the order
{H264, H265, AV1, VP9}, each group a fixed literal sequence guarded by the
group's codec flags (decode/encode not distinguished; VP9 on decode only). -/
def claimC4Profiles (c : SupportedCodecs) : List Int :=
  (if c.h264_decode || c.h264_encode then
    [VAProfileH264ConstrainedBaseline, VAProfileH264Main, VAProfileH264High] else [])
  ++ (if c.h265_decode || c.h265_encode then [VAProfileHEVCMain, VAProfileHEVCMain10] else [])
  ++ (if c.av1_decode || c.av1_encode then [VAProfileAV1Profile0, VAProfileAV1Profile1] else [])
  ++ (if c.vp9_decode then
    [VAProfileVP9Profile0, VAProfileVP9Profile1, VAProfileVP9Profile2, VAProfileVP9Profile3]
    else [])

/-! ## Entrypoint mapping (va_query_config_entrypoints, lines 125-172) -/

/-- MAX_ENTRYPOINTS constant of src/lib.rs (decode and encode). -/
def MAX_ENTRYPOINTS : Nat := 2

/-- The profile match of va_query_config_entrypoints (lines 125-151): the
(decode, encode) support pair for a recognized profile, none for any other
profile (which the caller turns into UnsupportedProfile). -/
def profileCodecFlags (profile : Int) (c : SupportedCodecs) : Option (Bool × Bool) :=
  if profile = VAProfileH264Baseline ∨ profile = VAProfileH264ConstrainedBaseline
      ∨ profile = VAProfileH264Main ∨ profile = VAProfileH264High then
    some (c.h264_decode, c.h264_encode)
  else if profile = VAProfileHEVCMain ∨ profile = VAProfileHEVCMain10 then
    some (c.h265_decode, c.h265_encode)
  else if profile = VAProfileAV1Profile0 ∨ profile = VAProfileAV1Profile1 then
    some (c.av1_decode, c.av1_encode)
  else if profile = VAProfileVP9Profile0 ∨ profile = VAProfileVP9Profile1
      ∨ profile = VAProfileVP9Profile2 ∨ profile = VAProfileVP9Profile3 then
    some (c.vp9_decode, false)
  else
    none

/-- The pure entrypoint computation of va_query_config_entrypoints: the match
to (decode, encode) followed by the range selection on
[VAEntrypointVLD, VAEntrypointEncSlice] (lines 158-172), with the
neither-supported branch returning UnsupportedProfile (line 170). -/
def entrypointListFor (profile : Int) (codecs : SupportedCodecs) : Except VaError (List Int) :=
  match profileCodecFlags profile codecs with
  | none => .error VaError.UnsupportedProfile
  | some (decode, encode) =>
    if decode && encode then .ok [VAEntrypointVLD, VAEntrypointEncSlice]
    else if decode then .ok [VAEntrypointVLD]
    else if encode then .ok [VAEntrypointEncSlice]
    else .error VaError.UnsupportedProfile

/-- Modelled from the spec (claim C5 wording, taken literally): for a profile
of the fixed case table the emitted sequence is the decode entrypoint when
the codec has decode support followed by the encode entrypoint when it has
encode support (VP9 never encode); only a profile outside the table yields
UnsupportedProfile. -/
def claimC5Entrypoints (profile : Int) (codecs : SupportedCodecs) : Except VaError (List Int) :=
  match profileCodecFlags profile codecs with
  | none => .error VaError.UnsupportedProfile
  | some (decode, encode) =>
    .ok ((if decode then [VAEntrypointVLD] else [])
      ++ (if encode then [VAEntrypointEncSlice] else []))

/-- The amended claim C5 mapping: as claimC5Entrypoints, except that a
recognized profile whose codec has neither decode nor encode support also
yields UnsupportedProfile. -/
def amendedC5Entrypoints (profile : Int) (codecs : SupportedCodecs) : Except VaError (List Int) :=
  match profileCodecFlags profile codecs with
  | none => .error VaError.UnsupportedProfile
  | some (decode, encode) =>
    if decode || encode then
      .ok ((if decode then [VAEntrypointVLD] else [])
        ++ (if encode then [VAEntrypointEncSlice] else []))
    else .error VaError.UnsupportedProfile

/-! ## Device identity (DeviceId, vulkan_device_is_same_as_drm) -/

/-- struct DeviceId(i64, i64): kernel major/minor device numbers.  The source
is a tuple struct; the fields are named major/minor here. -/
structure DeviceId where
  major : Int
  minor : Int
deriving DecidableEq

/-- The fields of vk::PhysicalDeviceDrmPropertiesEXT the driver reads
(Bool32 flags kept as the raw u32 they are, compared against VK_TRUE). -/
structure DrmProps where
  has_primary : Nat
  primary_major : Int
  primary_minor : Int
  has_render : Nat
  render_major : Int
  render_minor : Int
deriving DecidableEq

/-- fn vulkan_device_is_same_as_drm (src/lib.rs lines 701-712). -/
def vulkan_device_is_same_as_drm (drm_properties : DrmProps) (drm_device_id : DeviceId) : Bool :=
  let has_primary := drm_properties.has_primary == VK_TRUE
  let has_render := drm_properties.has_render == VK_TRUE
  let primary_id : DeviceId := ⟨drm_properties.primary_major, drm_properties.primary_minor⟩
  let render_id : DeviceId := ⟨drm_properties.render_major, drm_properties.render_minor⟩
  (has_primary && primary_id == drm_device_id) || (has_render && render_id == drm_device_id)

/-! ## Queue family selection (init_vulkan, lines 886-957) -/

/-- One queue family as seen by the selection loop: the inner
vk::QueueFamilyProperties together with the two pNext-chained per-family
records (video properties and query-result-status properties), which the
source keeps in three parallel vectors of equal length and indexes jointly. -/
structure QueueFamily where
  queue_flags : Nat
  queue_count : Nat
  video_codec_operations : Nat
  query_result_status_support : Nat
deriving DecidableEq

/-- struct CodecQueueFamilyInfo of src/lib.rs. -/
structure CodecQueueFamilyInfo where
  index : Nat
  count : Nat
  operations : Nat
  query_result_status_support : Bool
deriving DecidableEq

/-- The loop condition of init_vulkan lines 940-944: queue count positive and
queue flags containing both VIDEO_DECODE_KHR and TRANSFER. -/
def decodeQFPred (qf : QueueFamily) : Bool :=
  decide (0 < qf.queue_count)
    && decide (qf.queue_flags &&& (QUEUE_VIDEO_DECODE ||| QUEUE_TRANSFER)
      = QUEUE_VIDEO_DECODE ||| QUEUE_TRANSFER)

/-- The CodecQueueFamilyInfo built at init_vulkan lines 945-950 for queue
family index iq.1 with properties iq.2. -/
def mkQFInfo (iq : Nat × QueueFamily) : CodecQueueFamilyInfo :=
  { index := iq.1
    count := iq.2.queue_count
    operations := iq.2.video_codec_operations
    query_result_status_support := iq.2.query_result_status_support == VK_TRUE }

/-- The queue-family selection loop of init_vulkan lines 920-952: iterate over
the families in enumeration order, assigning (without break) the candidate
variable whenever the predicate holds. -/
def selectDecodeQF (qfs : List QueueFamily) : Option CodecQueueFamilyInfo :=
  qfs.enum.foldl
    (fun video_decode_qf iq =>
      if decodeQFPred iq.2 then some (mkQFInfo iq) else video_decode_qf)
    none

/-- Kind of Vulkan initialization failure: an error code from a Vulkan call,
or a Rust panic (the unimplemented! macro would abort the process; it is
proved unreachable below). -/
inductive InitErr where
  | vk (code : Int)
  | panicked (msg : String)
deriving DecidableEq

/-- The tail of init_vulkan (lines 954-957): a selected family or fatal
ERROR_INITIALIZATION_FAILED when no family was selected. -/
def queuePhase (qfs : List QueueFamily) : Except InitErr CodecQueueFamilyInfo :=
  match selectDecodeQF qfs with
  | some decode_queue_family => .ok decode_queue_family
  | none => .error (.vk VK_ERROR_INITIALIZATION_FAILED)

/-- The first queue family (in enumeration order) satisfying the predicate,
as claim C1 describes the selection. -/
def firstMatchQFInfo (qfs : List QueueFamily) : Option CodecQueueFamilyInfo :=
  (qfs.enum.find? (fun iq => decodeQFPred iq.2)).map mkQFInfo

/-- The last queue family (in enumeration order) satisfying the predicate:
what the source loop actually selects. -/
def lastMatchQFInfo (qfs : List QueueFamily) : Option CodecQueueFamilyInfo :=
  (qfs.enum.reverse.find? (fun iq => decodeQFPred iq.2)).map mkQFInfo

/-! ## Codec extension table and binary search (lines 758-766 and 839-860) -/

/-- One entry of the codec extension table: extension name, codec, operation. -/
abbrev CodecExt : Type := String × Codec × Operation

/-- const CODEC_EXTENSIONS: the (extension name, codec, operation) triples,
kept sorted by extension name for binary search.  The names are the Vulkan
extension name strings the ash khr::video_* modules denote. -/
def CODEC_EXTENSIONS : List CodecExt :=
  [("VK_KHR_video_decode_av1", Codec.Av1, Operation.Decode),
   ("VK_KHR_video_decode_h264", Codec.H264, Operation.Decode),
   ("VK_KHR_video_decode_h265", Codec.H265, Operation.Decode),
   ("VK_KHR_video_encode_h264", Codec.H264, Operation.Encode),
   ("VK_KHR_video_encode_h265", Codec.H265, Operation.Encode)]

/-- Lexicographic strictly-less comparison on character lists: the order the
CStr Ord instance uses (bytewise; identical to characterwise on the ASCII
extension names). -/
def strLtList : List Char → List Char → Bool
  | [], [] => false
  | [], _ :: _ => true
  | _ :: _, [] => false
  | a :: as, b :: bs => if a < b then true else if a = b then strLtList as bs else false

/-- Strictly-less on strings, via their character lists. -/
def strLt (a b : String) : Bool := strLtList a.data b.data

/-- Fuel-bounded loop of Rust slice::binary_search_by_key (the stdlib
routine called at line 846), with the element-to-key Ord comparison expanded
to its if-chain: element less than key moves left past mid, element equal to
key returns mid, otherwise right moves to mid.  The fuel always suffices
because each step shrinks the interval. -/
def bsLoop (key : String) (l : List CodecExt) : Nat → Nat → Nat → Option Nat
  | 0, _, _ => none
  | fuel + 1, left, right =>
    if left < right then
      let mid := left + (right - left) / 2
      match l.get? mid with
      | none => none
      | some e =>
        if strLt e.1 key then bsLoop key l fuel (mid + 1) right
        else if e.1 = key then some mid
        else bsLoop key l fuel left mid
    else none

/-- binary_search_by_key over a list: Ok(index) is modelled as some index. -/
def rustBinSearch (key : String) (l : List CodecExt) : Option Nat :=
  bsLoop key l (l.length + 1) 0 l.length

/-- The extension lookup of init_vulkan line 846-848: binary-search the table
by name and read the (codec, operation) pair at the found index. -/
def lookupCodecExtension (name : String) : Option (Codec × Operation) :=
  (rustBinSearch name CODEC_EXTENSIONS).bind
    (fun i => (CODEC_EXTENSIONS.get? i).map (fun e => e.2))

/-- One iteration of the extension loop of init_vulkan lines 840-860: an
extension whose name is invalid UTF (modelled as none) is skipped, a name
found in the table sets the documented flag, the (Vp9, Encode) pair would
hit unimplemented! (modelled as an error carrying the panic message), and
any other name is ignored. -/
def codecStep (sc : SupportedCodecs) (ext_name : Option String) : Except String SupportedCodecs :=
  match ext_name with
  | none => .ok sc
  | some n =>
    match lookupCodecExtension n with
    | some (Codec.Av1, Operation.Decode) => .ok { sc with av1_decode := true }
    | some (Codec.Av1, Operation.Encode) => .ok { sc with av1_encode := true }
    | some (Codec.H264, Operation.Decode) => .ok { sc with h264_decode := true }
    | some (Codec.H264, Operation.Encode) => .ok { sc with h264_encode := true }
    | some (Codec.H265, Operation.Decode) => .ok { sc with h265_decode := true }
    | some (Codec.H265, Operation.Encode) => .ok { sc with h265_encode := true }
    | some (Codec.Vp9, Operation.Decode) => .ok { sc with vp9_decode := true }
    | some (Codec.Vp9, Operation.Encode) => .error "VP9 encode"
    | none => .ok sc

/-- The whole extension-matching loop for one device, starting from
SupportedCodecs::default(). -/
def computeSupportedCodecs (exts : List (Option String)) : Except String SupportedCodecs :=
  List.foldlM codecStep SupportedCodecs.mkDefault exts

/-- Whether an extension-name list contains a given (valid) name. -/
def hasExtName : List (Option String) → String → Bool
  | [], _ => false
  | none :: rest, target => hasExtName rest target
  | some n :: rest, target => if n = target then true else hasExtName rest target

/-- The flag assignment claim C8 documents: each flag holds exactly when the
corresponding table name occurs among the device's extension names; the two
flags without a table entry (VP9 decode is commented out of the table, AV1
encode likewise) are never set. -/
def codecsOfExtensions (exts : List (Option String)) : SupportedCodecs :=
  { h264_decode := hasExtName exts "VK_KHR_video_decode_h264"
    h265_decode := hasExtName exts "VK_KHR_video_decode_h265"
    vp9_decode := false
    av1_decode := hasExtName exts "VK_KHR_video_decode_av1"
    h264_encode := hasExtName exts "VK_KHR_video_encode_h264"
    h265_encode := hasExtName exts "VK_KHR_video_encode_h265"
    av1_encode := false }

/-! ## Untrusted pointer model and context state -/

/-- A raw pointer crossing the C ABI: its null flag, whether it satisfies the
natural alignment of the target type, and the pointee content it denotes
when valid. -/
structure MPtr (α : Type) where
  isNull : Bool
  aligned : Bool
  val : α
deriving DecidableEq

/-- An output-only pointer whose pointee the driver never reads; only the
null/alignment state matters for the driver's behavior. -/
structure OPtr where
  isNull : Bool
  aligned : Bool
deriving DecidableEq

/-- The content of struct VulkanData the capability queries read: the codec
support record and the selected decode queue family.  The Vulkan handles
(entry, instance, debug utils loader, messenger, physical device) are opaque
to every claim and are not represented. -/
structure VulkanData where
  supported_codecs : SupportedCodecs
  decode_queue_family : CodecQueueFamilyInfo
deriving DecidableEq

/-- struct DriverData: the magic tag and the Vulkan capability record. -/
structure DriverData where
  magic : Nat
  vulkan : VulkanData
deriving DecidableEq

/-- DriverData::MAGIC. -/
def DriverData.MAGIC : Nat := 0x5641564b

/-- The value of the pDriverData slot: a raw *mut c_void. -/
abbrev DriverDataSlot : Type := MPtr DriverData

/-- The null pointer value written into the pDriverData slot by
std::mem::take (the pointee content of a null pointer is irrelevant; a fixed
dummy record is used). -/
def nullDriverDataSlot : DriverDataSlot :=
  { isNull := true
    aligned := true
    val := { magic := 0
             vulkan := { supported_codecs := SupportedCodecs.mkDefault
                         decode_queue_family := ⟨0, 0, 0, false⟩ } } }

/-- DriverData::from_ptr (src/lib.rs lines 1197-1221): reject a null or
unaligned pointer, then reject a magic mismatch; otherwise yield the record. -/
def DriverData.from_ptr (s : DriverDataSlot) : Except VaError DriverData :=
  if s.isNull || !s.aligned then .error VaError.InvalidParameter
  else if s.val.magic ≠ DriverData.MAGIC then .error VaError.InvalidParameter
  else .ok s.val

/-- drm_state sub-structure: the raw DRM file descriptor (the auth-type field
is only logged and not represented). -/
structure DrmState where
  fd : Int
deriving DecidableEq

/-- Identifier naming one of the implemented handler functions installed into
the dispatch table by fill_vtable. -/
inductive HandlerSlot where
  | terminate
  | queryConfigProfiles
  | queryConfigEntrypoints
  | getConfigAttributes
  | createConfig
  | destroyConfig
  | queryConfigAttributes
  | createSurfaces
  | destroySurfaces
  | createContext
  | destroyContext
  | createBuffer
  | bufferSetNumElements
  | mapBuffer
  | unmapBuffer
  | destroyBuffer
  | beginPicture
  | renderPicture
  | endPicture
  | syncSurface
  | querySurfaceStatus
  | queryImageFormats
  | createImage
  | deriveImage
  | destroyImage
  | setImagePalette
  | getImage
  | putImage
  | querySubpictureFormats
  | createSubpicture
  | destroySubpicture
  | setSubpictureImage
  | setSubpictureChromakey
  | setSubpictureGlobalAlpha
  | associateSubpicture
  | deassociateSubpicture
  | queryDisplayAttributes
  | getDisplayAttributes
  | setDisplayAttributes
deriving DecidableEq

/-- The host's VADriverContext, restricted to the fields this driver touches:
the dispatch-table pointer (pointee modelled as the list of slots written by
fill_vtable, in declaration order, None for slots left unpopulated), the
private-data slot, the capacity fields, the vendor string slot, and the
DRM state sub-pointer. -/
structure VADriverContext where
  vtable : MPtr (List (Option HandlerSlot))
  pDriverData : DriverDataSlot
  max_profiles : Int
  max_entrypoints : Int
  max_attributes : Int
  max_image_formats : Int
  max_subpic_formats : Int
  str_vendor : Option String
  drm_state : MPtr DrmState
deriving DecidableEq

/-! ## Handler outcome model -/

/-- Log events the claims observe. -/
inductive Event where
  | freeDriverData
  | warnNullTerminate
deriving DecidableEq

/-- A write performed through one of the caller's out-pointers. -/
inductive WriteEvt where
  | profiles (l : List Int)
  | numProfiles (n : Int)
  | entrypoints (l : List Int)
  | numEntrypoints (n : Int)
deriving DecidableEq

/-- The observable result of one entry-point call: the returned VAStatus, the
content of the driver context after the call, the emitted events, and the
writes performed through out-pointers. -/
structure Outcome where
  status : Int
  ctx : VADriverContext
  events : List Event
  writes : List WriteEvt
deriving DecidableEq

/-- The outcome of a call rejected by parameter validation: InvalidParameter,
context untouched, nothing else done. -/
def invalidParamOutcome (p : MPtr VADriverContext) : Outcome :=
  { status := VaError.InvalidParameter.toStatus
    ctx := p.val
    events := []
    writes := [] }

/-- fn with_driver_context (src/lib.rs lines 28-40) combined with
driver_context_as_ref (lines 1224-1241): validate the context pointer
(null/alignment), then run the body, mapping Ok to VA_STATUS_SUCCESS and a
VaError to its status; mutations made before an error persist. -/
def with_driver_context (p : MPtr VADriverContext)
    (f : VADriverContext → Except VaError Unit × VADriverContext × List Event × List WriteEvt) :
    Outcome :=
  if p.isNull || !p.aligned then invalidParamOutcome p
  else
    match f p.val with
    | (.ok _, c, ev, ws) => { status := VA_STATUS_SUCCESS, ctx := c, events := ev, writes := ws }
    | (.error e, c, ev, ws) => { status := e.toStatus, ctx := c, events := ev, writes := ws }

/-! ## Implemented handlers -/

/-- extern fn va_terminate (src/lib.rs lines 42-55): take the private-data
pointer out of the slot; if it was non-null, reconstruct the Box and drop it
(free exactly once), otherwise log a warning; always succeed. -/
def va_terminate (p : MPtr VADriverContext) : Outcome :=
  with_driver_context p (fun driver_context =>
    let driver_data := driver_context.pDriverData
    let driver_context := { driver_context with pDriverData := nullDriverDataSlot }
    if !driver_data.isNull then
      (.ok (), driver_context, [Event.freeDriverData], [])
    else
      (.ok (), driver_context, [Event.warnNullTerminate], []))

/-- extern fn va_query_config_profiles (src/lib.rs lines 57-113): validate
the two out-pointers before anything else, then validate the context and the
private data, build the profile list, apply the capacity check against
max_profiles cast to usize, and finally write the list and its length. -/
def va_query_config_profiles (p : MPtr VADriverContext)
    (profile_list num_profiles : OPtr) : Outcome :=
  if profile_list.isNull || !profile_list.aligned then invalidParamOutcome p
  else if num_profiles.isNull || !num_profiles.aligned then invalidParamOutcome p
  else
    with_driver_context p (fun driver_context =>
      match DriverData.from_ptr driver_context.pDriverData with
      | .error e => (.error e, driver_context, [], [])
      | .ok driver_data =>
        let supported_profiles :=
          supportedProfilesList driver_data.vulkan.supported_codecs
        if supported_profiles.length > usizeCast driver_context.max_profiles then
          (.error VaError.OperationFailed, driver_context, [], [])
        else
          (.ok (), driver_context, [],
            [WriteEvt.profiles supported_profiles,
             WriteEvt.numProfiles (supported_profiles.length : Int)]))

/-- extern fn va_query_config_entrypoints (src/lib.rs lines 117-184): no
validation of the out-pointers (their state is ignored); validate context
and private data, match the profile, apply the capacity check against
max_entrypoints, select the entrypoint range, and write it. -/
def va_query_config_entrypoints (p : MPtr VADriverContext) (profile : Int)
    (_entrypoint_list _num_entrypoints : OPtr) : Outcome :=
  with_driver_context p (fun driver_context =>
    match DriverData.from_ptr driver_context.pDriverData with
    | .error e => (.error e, driver_context, [], [])
    | .ok driver_data =>
      match profileCodecFlags profile driver_data.vulkan.supported_codecs with
      | none => (.error VaError.UnsupportedProfile, driver_context, [], [])
      | some (decode, encode) =>
        if MAX_ENTRYPOINTS > usizeCast driver_context.max_entrypoints then
          (.error VaError.OperationFailed, driver_context, [], [])
        else
          if decode && encode then
            (.ok (), driver_context, [],
              [WriteEvt.entrypoints [VAEntrypointVLD, VAEntrypointEncSlice],
               WriteEvt.numEntrypoints 2])
          else if decode then
            (.ok (), driver_context, [],
              [WriteEvt.entrypoints [VAEntrypointVLD], WriteEvt.numEntrypoints 1])
          else if encode then
            (.ok (), driver_context, [],
              [WriteEvt.entrypoints [VAEntrypointEncSlice], WriteEvt.numEntrypoints 1])
          else
            (.error VaError.UnsupportedProfile, driver_context, [], []))

/-- The body shared by every unimplemented stub handler: validate the context
and unconditionally signal Unimplemented. -/
def unimplementedBody (driver_context : VADriverContext) :
    Except VaError Unit × VADriverContext × List Event × List WriteEvt :=
  (.error VaError.Unimplemented, driver_context, [], [])

def va_create_config (p : MPtr VADriverContext) : Outcome :=
  with_driver_context p unimplementedBody

def va_destroy_config (p : MPtr VADriverContext) : Outcome :=
  with_driver_context p unimplementedBody

def va_get_config_attributes (p : MPtr VADriverContext) : Outcome :=
  with_driver_context p unimplementedBody

def va_query_config_attributes (p : MPtr VADriverContext) : Outcome :=
  with_driver_context p unimplementedBody

def va_create_surfaces (p : MPtr VADriverContext) : Outcome :=
  with_driver_context p unimplementedBody

def va_destroy_surfaces (p : MPtr VADriverContext) : Outcome :=
  with_driver_context p unimplementedBody

def va_create_context (p : MPtr VADriverContext) : Outcome :=
  with_driver_context p unimplementedBody

def va_destroy_context (p : MPtr VADriverContext) : Outcome :=
  with_driver_context p unimplementedBody

def va_create_buffer (p : MPtr VADriverContext) : Outcome :=
  with_driver_context p unimplementedBody

def va_buffer_set_num_elements (p : MPtr VADriverContext) : Outcome :=
  with_driver_context p unimplementedBody

def va_map_buffer (p : MPtr VADriverContext) : Outcome :=
  with_driver_context p unimplementedBody

def va_unmap_buffer (p : MPtr VADriverContext) : Outcome :=
  with_driver_context p unimplementedBody

def va_destroy_buffer (p : MPtr VADriverContext) : Outcome :=
  with_driver_context p unimplementedBody

def va_begin_picture (p : MPtr VADriverContext) : Outcome :=
  with_driver_context p unimplementedBody

def va_render_picture (p : MPtr VADriverContext) : Outcome :=
  with_driver_context p unimplementedBody

def va_end_picture (p : MPtr VADriverContext) : Outcome :=
  with_driver_context p unimplementedBody

def va_sync_surface (p : MPtr VADriverContext) : Outcome :=
  with_driver_context p unimplementedBody

def va_query_surface_status (p : MPtr VADriverContext) : Outcome :=
  with_driver_context p unimplementedBody

def va_query_image_formats (p : MPtr VADriverContext) : Outcome :=
  with_driver_context p unimplementedBody

def va_create_image (p : MPtr VADriverContext) : Outcome :=
  with_driver_context p unimplementedBody

def va_derive_image (p : MPtr VADriverContext) : Outcome :=
  with_driver_context p unimplementedBody

def va_destroy_image (p : MPtr VADriverContext) : Outcome :=
  with_driver_context p unimplementedBody

def va_set_image_palette (p : MPtr VADriverContext) : Outcome :=
  with_driver_context p unimplementedBody

def va_get_image (p : MPtr VADriverContext) : Outcome :=
  with_driver_context p unimplementedBody

def va_put_image (p : MPtr VADriverContext) : Outcome :=
  with_driver_context p unimplementedBody

def va_query_subpicture_formats (p : MPtr VADriverContext) : Outcome :=
  with_driver_context p unimplementedBody

def va_create_subpicture (p : MPtr VADriverContext) : Outcome :=
  with_driver_context p unimplementedBody

def va_destroy_subpicture (p : MPtr VADriverContext) : Outcome :=
  with_driver_context p unimplementedBody

def va_set_subpicture_image (p : MPtr VADriverContext) : Outcome :=
  with_driver_context p unimplementedBody

def va_set_subpicture_chromakey (p : MPtr VADriverContext) : Outcome :=
  with_driver_context p unimplementedBody

def va_set_subpicture_global_alpha (p : MPtr VADriverContext) : Outcome :=
  with_driver_context p unimplementedBody

def va_associate_subpicture (p : MPtr VADriverContext) : Outcome :=
  with_driver_context p unimplementedBody

def va_deassociate_subpicture (p : MPtr VADriverContext) : Outcome :=
  with_driver_context p unimplementedBody

def va_query_display_attributes (p : MPtr VADriverContext) : Outcome :=
  with_driver_context p unimplementedBody

def va_get_display_attributes (p : MPtr VADriverContext) : Outcome :=
  with_driver_context p unimplementedBody

def va_set_display_attributes (p : MPtr VADriverContext) : Outcome :=
  with_driver_context p unimplementedBody

/-- Interpretation of a handler slot as the corresponding handler function.
The arguments of the C signatures that a handler ignores are omitted from
its model; the profile argument and the two out-pointer arguments used by
the capability queries are threaded uniformly. -/
def runHandler (h : HandlerSlot) (profile : Int) (outA outB : OPtr)
    (p : MPtr VADriverContext) : Outcome :=
  match h with
  | .terminate => va_terminate p
  | .queryConfigProfiles => va_query_config_profiles p outA outB
  | .queryConfigEntrypoints => va_query_config_entrypoints p profile outA outB
  | .getConfigAttributes => va_get_config_attributes p
  | .createConfig => va_create_config p
  | .destroyConfig => va_destroy_config p
  | .queryConfigAttributes => va_query_config_attributes p
  | .createSurfaces => va_create_surfaces p
  | .destroySurfaces => va_destroy_surfaces p
  | .createContext => va_create_context p
  | .destroyContext => va_destroy_context p
  | .createBuffer => va_create_buffer p
  | .bufferSetNumElements => va_buffer_set_num_elements p
  | .mapBuffer => va_map_buffer p
  | .unmapBuffer => va_unmap_buffer p
  | .destroyBuffer => va_destroy_buffer p
  | .beginPicture => va_begin_picture p
  | .renderPicture => va_render_picture p
  | .endPicture => va_end_picture p
  | .syncSurface => va_sync_surface p
  | .querySurfaceStatus => va_query_surface_status p
  | .queryImageFormats => va_query_image_formats p
  | .createImage => va_create_image p
  | .deriveImage => va_derive_image p
  | .destroyImage => va_destroy_image p
  | .setImagePalette => va_set_image_palette p
  | .getImage => va_get_image p
  | .putImage => va_put_image p
  | .querySubpictureFormats => va_query_subpicture_formats p
  | .createSubpicture => va_create_subpicture p
  | .destroySubpicture => va_destroy_subpicture p
  | .setSubpictureImage => va_set_subpicture_image p
  | .setSubpictureChromakey => va_set_subpicture_chromakey p
  | .setSubpictureGlobalAlpha => va_set_subpicture_global_alpha p
  | .associateSubpicture => va_associate_subpicture p
  | .deassociateSubpicture => va_deassociate_subpicture p
  | .queryDisplayAttributes => va_query_display_attributes p
  | .getDisplayAttributes => va_get_display_attributes p
  | .setDisplayAttributes => va_set_display_attributes p

/-- fn fill_vtable (src/lib.rs lines 596-660): the slots of VADriverVTable in
declaration order; Some slot for each installed handler, none for each slot
the source leaves unpopulated (absent per host contract). -/
def vtableSlots : List (Option HandlerSlot) :=
  [some .terminate,
   some .queryConfigProfiles,
   some .queryConfigEntrypoints,
   some .getConfigAttributes,
   some .createConfig,
   some .destroyConfig,
   some .queryConfigAttributes,
   some .createSurfaces,
   some .destroySurfaces,
   some .createContext,
   some .destroyContext,
   some .createBuffer,
   some .bufferSetNumElements,
   some .mapBuffer,
   some .unmapBuffer,
   some .destroyBuffer,
   some .beginPicture,
   some .renderPicture,
   some .endPicture,
   some .syncSurface,
   some .querySurfaceStatus,
   none,  -- vaQuerySurfaceError
   none,  -- vaPutSurface
   some .queryImageFormats,
   some .createImage,
   some .deriveImage,
   some .destroyImage,
   some .setImagePalette,
   some .getImage,
   some .putImage,
   some .querySubpictureFormats,
   some .createSubpicture,
   some .destroySubpicture,
   some .setSubpictureImage,
   some .setSubpictureChromakey,
   some .setSubpictureGlobalAlpha,
   some .associateSubpicture,
   some .deassociateSubpicture,
   some .queryDisplayAttributes,
   some .getDisplayAttributes,
   some .setDisplayAttributes,
   none,  -- vaBufferInfo
   none,  -- vaLockSurface
   none,  -- vaUnlockSurface
   none,  -- vaGetSurfaceAttributes
   none,  -- vaCreateSurfaces2
   none,  -- vaQuerySurfaceAttributes
   none,  -- vaAcquireBufferHandle
   none,  -- vaReleaseBufferHandle
   none,  -- vaCreateMFContext
   none,  -- vaMFAddContext
   none,  -- vaMFReleaseContext
   none,  -- vaMFSubmit
   none,  -- vaCreateBuffer2
   none,  -- vaQueryProcessingRate
   none,  -- vaExportSurfaceHandle
   none,  -- vaSyncSurface2
   none,  -- vaSyncBuffer
   none,  -- vaCopy
   none]  -- vaMapBuffer2

/-- The handlers actually installed (the Some entries of the table). -/
def installedHandlerSlots : List HandlerSlot :=
  vtableSlots.filterMap id

/-! ## Device identity extraction (extract_drm_device_id, lines 1130-1187) -/

/-- The file metadata the DRM descriptor query yields. -/
structure FileMeta where
  is_char_device : Bool
  rdev : Nat
deriving DecidableEq

/-- glibc gnu_dev_major, as libc::major expands on Linux. -/
def linuxMajor (dev : Nat) : Nat :=
  ((dev >>> 32) &&& 0xfffff000) ||| ((dev >>> 8) &&& 0xfff)

/-- glibc gnu_dev_minor, as libc::minor expands on Linux. -/
def linuxMinor (dev : Nat) : Nat :=
  ((dev >>> 12) &&& 0xffffff00) ||| (dev &&& 0xff)

/-- The external world for one init call: the result of the DRM descriptor
metadata query and the results of the Vulkan calls. -/
structure VkPhysicalDevice where
  drm_props : DrmProps
  extensions : Except Int (List (Option String))
  queue_families : List QueueFamily

structure VulkanEnv where
  create_instance : Except Int Unit
  create_debug_messenger : Except Int Unit
  enumerate_physical_devices : Except Int (List VkPhysicalDevice)

structure DriverEnv where
  metadata : Except Unit FileMeta
  vulkan : VulkanEnv

/-- unsafe fn extract_drm_device_id (src/lib.rs lines 1130-1187): validate
the drm_state sub-pointer, reject a negative descriptor, query the file
metadata (ownership is taken only for the query and returned, modelled by
the query being purely observational), require a character device, and split
st_rdev into major/minor. -/
def extract_drm_device_id (env : DriverEnv) (driver_context : VADriverContext) :
    Except VaError DeviceId :=
  if driver_context.drm_state.isNull || !driver_context.drm_state.aligned then
    .error VaError.InvalidParameter
  else
    let drm_fd := driver_context.drm_state.val.fd
    if drm_fd < 0 then .error VaError.InvalidParameter
    else
      match env.metadata with
      | .error _ => .error VaError.OperationFailed
      | .ok metadata =>
        if !metadata.is_char_device then .error VaError.InvalidParameter
        else
          .ok ⟨(linuxMajor metadata.rdev : Int), (linuxMinor metadata.rdev : Int)⟩

/-! ## GPU backend initialization (init_vulkan, lines 768-973) -/

/-- The device loop of init_vulkan lines 820-876: for each physical device,
enumerate its extensions (a failure aborts the whole call), compute its
SupportedCodecs (a VP9-encode table hit would panic), and stop at the first
device matching the DRM device id. -/
def find_matching_device (device_id : DeviceId) :
    List VkPhysicalDevice → Except InitErr (Option (VkPhysicalDevice × SupportedCodecs))
  | [] => .ok none
  | device :: rest =>
    match device.extensions with
    | .error code => .error (.vk code)
    | .ok exts =>
      match computeSupportedCodecs exts with
      | .error msg => .error (.panicked msg)
      | .ok supported_codecs =>
        if vulkan_device_is_same_as_drm device.drm_props device_id then
          .ok (some (device, supported_codecs))
        else
          find_matching_device device_id rest

/-- fn init_vulkan (src/lib.rs lines 768-973): create the instance and the
debug messenger, enumerate physical devices, find the one matching the DRM
device id (no match is fatal ERROR_INITIALIZATION_FAILED), then run the
queue-family selection phase on the matched device's families. -/
def init_vulkan (env : VulkanEnv) (device_id : DeviceId) : Except InitErr VulkanData :=
  match env.create_instance with
  | .error code => .error (.vk code)
  | .ok _ =>
  match env.create_debug_messenger with
  | .error code => .error (.vk code)
  | .ok _ =>
  match env.enumerate_physical_devices with
  | .error code => .error (.vk code)
  | .ok physical_devices =>
  match find_matching_device device_id physical_devices with
  | .error e => .error e
  | .ok none => .error (.vk VK_ERROR_INITIALIZATION_FAILED)
  | .ok (some (device, supported_codecs)) =>
    match queuePhase device.queue_families with
    | .error e => .error e
    | .ok decode_queue_family =>
      .ok { supported_codecs := supported_codecs, decode_queue_family := decode_queue_family }

/-- The map_err closure of src/lib.rs lines 1278-1281: any init_vulkan error
becomes OperationFailed at the driver boundary. -/
def initVulkanErrToVaError (_e : InitErr) : VaError :=
  VaError.OperationFailed

/-! ## Driver initialization (va_driver_init, lines 1243-1291) -/

/-- const PROFILES (src/lib.rs lines 985-1025): the 39 VAProfile values whose
count seeds max_profiles. -/
def PROFILES : List Int :=
  [VAProfileNone, VAProfileMPEG2Simple, VAProfileMPEG2Main, VAProfileMPEG4Simple,
   VAProfileMPEG4AdvancedSimple, VAProfileMPEG4Main, VAProfileH264Main, VAProfileH264High,
   VAProfileVC1Simple, VAProfileVC1Main, VAProfileVC1Advanced, VAProfileH263Baseline,
   VAProfileJPEGBaseline, VAProfileH264ConstrainedBaseline, VAProfileVP8Version0_3,
   VAProfileH264MultiviewHigh, VAProfileH264StereoHigh, VAProfileHEVCMain, VAProfileHEVCMain10,
   VAProfileVP9Profile0, VAProfileVP9Profile1, VAProfileVP9Profile2, VAProfileVP9Profile3,
   VAProfileHEVCMain12, VAProfileHEVCMain422_10, VAProfileHEVCMain422_12, VAProfileHEVCMain444,
   VAProfileHEVCMain444_10, VAProfileHEVCMain444_12, VAProfileHEVCSccMain, VAProfileHEVCSccMain10,
   VAProfileHEVCSccMain444, VAProfileAV1Profile0, VAProfileAV1Profile1,
   VAProfileHEVCSccMain444_10, VAProfileProtected, VAProfileH264High10, VAProfileVVCMain10,
   VAProfileVVCMultilayerMain10]

/-- unsafe fn va_driver_init (src/lib.rs lines 1243-1291): validate the
context pointer and the vtable pointer; then (before any device work) set
the capacity fields, the vendor string, and fill the vtable; then extract
the DRM device id and initialize Vulkan (both failures propagate, the
Vulkan one mapped to OperationFailed); on success attach the freshly
allocated DriverData (with its magic tag) to the private-data slot. -/
def va_driver_init (env : DriverEnv) (p : MPtr VADriverContext) :
    Except VaError Unit × VADriverContext :=
  if p.isNull || !p.aligned then (.error VaError.InvalidParameter, p.val)
  else if p.val.vtable.isNull || !p.val.vtable.aligned then
    (.error VaError.InvalidParameter, p.val)
  else
    let driver_context :=
      { p.val with
        max_profiles := (PROFILES.length : Int)
        max_entrypoints := (MAX_ENTRYPOINTS : Int)
        max_attributes := 1
        max_image_formats := 1
        max_subpic_formats := 1
        str_vendor := some VENDOR
        vtable := { p.val.vtable with val := vtableSlots } }
    match extract_drm_device_id env driver_context with
    | .error e => (.error e, driver_context)
    | .ok drm_device_id =>
      match init_vulkan env.vulkan drm_device_id with
      | .error e => (.error (initVulkanErrToVaError e), driver_context)
      | .ok vulkan_data =>
        (.ok (),
          { driver_context with
            pDriverData :=
              { isNull := false
                aligned := true
                val := { magic := DriverData.MAGIC, vulkan := vulkan_data } } })

/-- pub unsafe extern fn __vaDriverInit_1_22 (src/lib.rs lines 1298-1313):
the exported boundary that maps the Result of va_driver_init to a VAStatus
(logger setup is process-global and not represented). -/
def vaDriverInit_1_22 (env : DriverEnv) (p : MPtr VADriverContext) : Int × VADriverContext :=
  match va_driver_init env p with
  | (.ok _, c) => (VA_STATUS_SUCCESS, c)
  | (.error e, c) => (e.toStatus, c)

/-! ## Concrete inputs used by witnesses and counterexamples -/

/-- A queue family satisfying the decode-queue predicate. -/
def qfMatch : QueueFamily :=
  { queue_flags := QUEUE_VIDEO_DECODE ||| QUEUE_TRANSFER
    queue_count := 1
    video_codec_operations := 0
    query_result_status_support := 1 }

/-- A live private-data slot whose codec record supports H264 decode only. -/
def ddH264 : DriverDataSlot :=
  { isNull := false
    aligned := true
    val := { magic := DriverData.MAGIC
             vulkan := { supported_codecs := { SupportedCodecs.mkDefault with h264_decode := true }
                         decode_queue_family := ⟨0, 1, 0, true⟩ } } }

/-- A fully initialized context as the driver leaves it after init. -/
def ctxGood : VADriverContext :=
  { vtable := ⟨false, true, vtableSlots⟩
    pDriverData := ddH264
    max_profiles := 39
    max_entrypoints := 2
    max_attributes := 1
    max_image_formats := 1
    max_subpic_formats := 1
    str_vendor := some VENDOR
    drm_state := ⟨true, true, ⟨0⟩⟩ }

/-- ctxGood with max_profiles corrupted to a negative value. -/
def ctxNegCap : VADriverContext := { ctxGood with max_profiles := -1 }

/-- ctxGood with max_profiles corrupted below the emitted sequence length. -/
def ctxSmallCap : VADriverContext := { ctxGood with max_profiles := 2 }

def pGood : MPtr VADriverContext := ⟨false, true, ctxGood⟩

def pNegCap : MPtr VADriverContext := ⟨false, true, ctxNegCap⟩

def pSmallCap : MPtr VADriverContext := ⟨false, true, ctxSmallCap⟩

/-- A null context pointer (the pointee content is irrelevant). -/
def pNullCtx : MPtr VADriverContext := ⟨true, true, ctxGood⟩

/-- ctxGood with the private-data slot already null. -/
def pNullData : MPtr VADriverContext := ⟨false, true, { ctxGood with pDriverData := nullDriverDataSlot }⟩

/-- A context as the host hands it to init (calloc-zeroed capacities, empty
vtable pointee, null DRM state), with valid context and vtable pointers. -/
def ctxPreInit : VADriverContext :=
  { vtable := ⟨false, true, []⟩
    pDriverData := nullDriverDataSlot
    max_profiles := 0
    max_entrypoints := 0
    max_attributes := 0
    max_image_formats := 0
    max_subpic_formats := 0
    str_vendor := none
    drm_state := ⟨true, true, ⟨0⟩⟩ }

def pPreInit : MPtr VADriverContext := ⟨false, true, ctxPreInit⟩

/-- An environment in which the metadata query fails; its Vulkan side is
never reached in the runs that use it. -/
def envNoVk : DriverEnv :=
  { metadata := .error ()
    vulkan := { create_instance := .ok ()
                create_debug_messenger := .ok ()
                enumerate_physical_devices := .ok [] } }

/-- A valid (non-null, aligned) out-pointer. -/
def okPtr : OPtr := ⟨false, true⟩

/-- A null out-pointer. -/
def nullOPtr : OPtr := ⟨true, true⟩

/-- Equality of Except values is decidable when both components are. -/
instance exceptDecEq {ε α : Type} [DecidableEq ε] [DecidableEq α] :
    DecidableEq (Except ε α) := fun a b =>
  match a, b with
  | .ok x, .ok y =>
    if h : x = y then .isTrue (by rw [h]) else .isFalse (by intro hc; cases hc; exact h rfl)
  | .error x, .error y =>
    if h : x = y then .isTrue (by rw [h]) else .isFalse (by intro hc; cases hc; exact h rfl)
  | .ok _, .error _ => .isFalse (by intro hc; cases hc)
  | .error _, .ok _ => .isFalse (by intro hc; cases hc)

/-! ## Helper lemmas -/

/-- A fold that overwrites an option whenever the predicate holds ends at the
last matching element (the first match of the reversed list). -/
theorem foldl_overwrite_last_match {α β : Type} (p : α → Bool) (f : α → β) :
    ∀ (l : List α) (init : Option β),
      l.foldl (fun acc x => if p x then some (f x) else acc) init
        = match l.reverse.find? p with
          | some x => some (f x)
          | none => init := by
  intro l
  induction l with
  | nil => intro init; rfl
  | cons a t ih =>
    intro init
    rw [List.foldl_cons, ih, List.reverse_cons, List.find?_append]
    cases h : t.reverse.find? p with
    | some x => simp [h]
    | none =>
      cases hpa : p a <;> simp [h, List.find?, hpa]

/-! ## Claim C1 -/

/-- Claim C1 (corrected): during GPU backend initialization the selected
decode queue family is the LAST family, in enumeration order, whose queue
count is positive and whose flags contain both video-decode and transfer
(the loop overwrites without break); if no family satisfies the predicate
the queue phase fails with ERROR_INITIALIZATION_FAILED, which
va_driver_init maps to OperationFailed. -/
theorem queuePhase_selects_last_matching_family :
    ∀ qfs : List QueueFamily,
      (queuePhase qfs
          = match lastMatchQFInfo qfs with
            | some info => .ok info
            | none => .error (InitErr.vk VK_ERROR_INITIALIZATION_FAILED))
        ∧ ∀ e : InitErr, initVulkanErrToVaError e = VaError.OperationFailed := by
  intro qfs
  constructor
  · unfold queuePhase selectDecodeQF lastMatchQFInfo
    rw [foldl_overwrite_last_match]
    cases h : qfs.enum.reverse.find? (fun iq => decodeQFPred iq.2) <;> simp [h]
  · intro e
    rfl

/-- Counterexample to claim C1 as stated: with two matching queue families
the loop selects index 1, not the first matching index 0. -/
theorem selectDecodeQF_not_first_counterexample :
    selectDecodeQF [qfMatch, qfMatch] ≠ firstMatchQFInfo [qfMatch, qfMatch]
      ∧ (selectDecodeQF [qfMatch, qfMatch]).map (fun i => i.index) = some 1
      ∧ (firstMatchQFInfo [qfMatch, qfMatch]).map (fun i => i.index) = some 0 := by
  refine ⟨?_, ?_, ?_⟩ <;> decide

/-! ## Claim C4 -/

/-- Claim C4: the profile sequence emitted by va_query_config_profiles is
exactly determined by the codec flags, in codec-group order
{H264, H265, AV1, VP9} with the fixed literal order inside each group,
without distinguishing decode-only from encode-only support. -/
theorem supported_profiles_match_spec_order :
    ∀ c : SupportedCodecs, supportedProfilesList c = claimC4Profiles c := by
  intro c
  rcases c with ⟨d1, d2, d3, d4, e1, e2, e3⟩
  cases d1 <;> cases d2 <;> cases d3 <;> cases d4 <;> cases e1 <;> cases e2 <;> cases e3 <;> rfl

/-! ## Claim C5 -/

/-- Counterexample to claim C5 as stated: for the recognized profile H264Main
with no codec support at all, the code returns UnsupportedProfile whereas
the claim's rule emits the empty entrypoint sequence. -/
theorem entrypoints_no_support_counterexample :
    entrypointListFor VAProfileH264Main SupportedCodecs.mkDefault
        = .error VaError.UnsupportedProfile
      ∧ claimC5Entrypoints VAProfileH264Main SupportedCodecs.mkDefault = .ok []
      ∧ (Except.error VaError.UnsupportedProfile : Except VaError (List Int)) ≠ .ok [] := by
  refine ⟨?_, ?_, ?_⟩ <;> decide

/-- Claim C5 (corrected): va_query_config_entrypoints emits, in fixed order,
the decode entrypoint when the profile's codec has decode support and the
encode entrypoint when it has encode support (VP9 never encode); a profile
outside the fixed case table yields UnsupportedProfile, and so does a
recognized profile whose codec has neither decode nor encode support. -/
theorem entrypoints_match_amended_table :
    ∀ (profile : Int) (c : SupportedCodecs),
      entrypointListFor profile c = amendedC5Entrypoints profile c := by
  intro profile c
  unfold entrypointListFor amendedC5Entrypoints
  cases h : profileCodecFlags profile c with
  | none => rfl
  | some de =>
    rcases de with ⟨d, e⟩
    cases d <;> cases e <;> rfl

/-! ## Claim C8 helpers -/

/-- The binary search over the concrete five-entry table, characterized as
the if-chain on the key: exactly the table names are found, every other key
yields none. -/
theorem lookupCodecExtension_eq (n : String) :
    lookupCodecExtension n
      = if n = "VK_KHR_video_decode_av1" then some (Codec.Av1, Operation.Decode)
        else if n = "VK_KHR_video_decode_h264" then some (Codec.H264, Operation.Decode)
        else if n = "VK_KHR_video_decode_h265" then some (Codec.H265, Operation.Decode)
        else if n = "VK_KHR_video_encode_h264" then some (Codec.H264, Operation.Encode)
        else if n = "VK_KHR_video_encode_h265" then some (Codec.H265, Operation.Encode)
        else none := by
  by_cases h1 : n = "VK_KHR_video_decode_av1"
  · subst h1; decide
  by_cases h2 : n = "VK_KHR_video_decode_h264"
  · subst h2; decide
  by_cases h3 : n = "VK_KHR_video_decode_h265"
  · subst h3; decide
  by_cases h4 : n = "VK_KHR_video_encode_h264"
  · subst h4; decide
  by_cases h5 : n = "VK_KHR_video_encode_h265"
  · subst h5; decide
  rw [if_neg h1, if_neg h2, if_neg h3, if_neg h4, if_neg h5]
  have hne1 : ¬ (("VK_KHR_video_decode_av1" : String) = n) := fun h => h1 h.symm
  have hne2 : ¬ (("VK_KHR_video_decode_h264" : String) = n) := fun h => h2 h.symm
  have hne3 : ¬ (("VK_KHR_video_decode_h265" : String) = n) := fun h => h3 h.symm
  have hne4 : ¬ (("VK_KHR_video_encode_h264" : String) = n) := fun h => h4 h.symm
  have hne5 : ¬ (("VK_KHR_video_encode_h265" : String) = n) := fun h => h5 h.symm
  have step605 : bsLoop n CODEC_EXTENSIONS 6 0 5
      = (if strLt "VK_KHR_video_decode_h265" n then bsLoop n CODEC_EXTENSIONS 5 3 5
         else if ("VK_KHR_video_decode_h265" : String) = n then some 2
         else bsLoop n CODEC_EXTENSIONS 5 0 2) := rfl
  have step535 : bsLoop n CODEC_EXTENSIONS 5 3 5
      = (if strLt "VK_KHR_video_encode_h265" n then bsLoop n CODEC_EXTENSIONS 4 5 5
         else if ("VK_KHR_video_encode_h265" : String) = n then some 4
         else bsLoop n CODEC_EXTENSIONS 4 3 4) := rfl
  have step455 : bsLoop n CODEC_EXTENSIONS 4 5 5 = none := rfl
  have step434 : bsLoop n CODEC_EXTENSIONS 4 3 4
      = (if strLt "VK_KHR_video_encode_h264" n then bsLoop n CODEC_EXTENSIONS 3 4 4
         else if ("VK_KHR_video_encode_h264" : String) = n then some 3
         else bsLoop n CODEC_EXTENSIONS 3 3 3) := rfl
  have step344 : bsLoop n CODEC_EXTENSIONS 3 4 4 = none := rfl
  have step333 : bsLoop n CODEC_EXTENSIONS 3 3 3 = none := rfl
  have step502 : bsLoop n CODEC_EXTENSIONS 5 0 2
      = (if strLt "VK_KHR_video_decode_h264" n then bsLoop n CODEC_EXTENSIONS 4 2 2
         else if ("VK_KHR_video_decode_h264" : String) = n then some 1
         else bsLoop n CODEC_EXTENSIONS 4 0 1) := rfl
  have step422 : bsLoop n CODEC_EXTENSIONS 4 2 2 = none := rfl
  have step401 : bsLoop n CODEC_EXTENSIONS 4 0 1
      = (if strLt "VK_KHR_video_decode_av1" n then bsLoop n CODEC_EXTENSIONS 3 1 1
         else if ("VK_KHR_video_decode_av1" : String) = n then some 0
         else bsLoop n CODEC_EXTENSIONS 3 0 0) := rfl
  have step311 : bsLoop n CODEC_EXTENSIONS 3 1 1 = none := rfl
  have step300 : bsLoop n CODEC_EXTENSIONS 3 0 0 = none := rfl
  show (bsLoop n CODEC_EXTENSIONS 6 0 5).bind
      (fun i => (CODEC_EXTENSIONS.get? i).map (fun e => e.2)) = none
  rw [step605]
  by_cases hc1 : strLt "VK_KHR_video_decode_h265" n = true
  · rw [if_pos hc1, step535]
    by_cases hc2 : strLt "VK_KHR_video_encode_h265" n = true
    · rw [if_pos hc2, step455]; rfl
    · rw [if_neg hc2, if_neg hne5, step434]
      by_cases hc3 : strLt "VK_KHR_video_encode_h264" n = true
      · rw [if_pos hc3, step344]; rfl
      · rw [if_neg hc3, if_neg hne4, step333]; rfl
  · rw [if_neg hc1, if_neg hne3, step502]
    by_cases hc4 : strLt "VK_KHR_video_decode_h264" n = true
    · rw [if_pos hc4, step422]; rfl
    · rw [if_neg hc4, if_neg hne2, step401]
      by_cases hc5 : strLt "VK_KHR_video_decode_av1" n = true
      · rw [if_pos hc5, step311]; rfl
      · rw [if_neg hc5, if_neg hne1, step300]; rfl

/-- One step of the extension loop for each name present in the table. -/
theorem codecStep_av1d (sc : SupportedCodecs) :
    codecStep sc (some "VK_KHR_video_decode_av1") = .ok { sc with av1_decode := true } := rfl

theorem codecStep_h264d (sc : SupportedCodecs) :
    codecStep sc (some "VK_KHR_video_decode_h264") = .ok { sc with h264_decode := true } := rfl

theorem codecStep_h265d (sc : SupportedCodecs) :
    codecStep sc (some "VK_KHR_video_decode_h265") = .ok { sc with h265_decode := true } := rfl

theorem codecStep_h264e (sc : SupportedCodecs) :
    codecStep sc (some "VK_KHR_video_encode_h264") = .ok { sc with h264_encode := true } := rfl

theorem codecStep_h265e (sc : SupportedCodecs) :
    codecStep sc (some "VK_KHR_video_encode_h265") = .ok { sc with h265_encode := true } := rfl

/-- Skipping an invalid name leaves the membership test unchanged. -/
theorem hasExtName_cons_none (t : List (Option String)) (target : String) :
    hasExtName (none :: t) target = hasExtName t target := rfl

theorem hasExtName_cons_some_self (n : String) (t : List (Option String)) :
    hasExtName (some n :: t) n = true := by simp [hasExtName]

theorem hasExtName_cons_some_ne (n target : String) (t : List (Option String))
    (h : ¬ n = target) :
    hasExtName (some n :: t) target = hasExtName t target := by simp [hasExtName, h]

/-- The whole extension fold, characterized flag by flag from an arbitrary
starting record. -/
theorem computeCodecs_foldlM (exts : List (Option String)) :
    ∀ sc : SupportedCodecs,
      List.foldlM codecStep sc exts
        = Except.ok
          { h264_decode := sc.h264_decode || hasExtName exts "VK_KHR_video_decode_h264"
            h265_decode := sc.h265_decode || hasExtName exts "VK_KHR_video_decode_h265"
            vp9_decode := sc.vp9_decode
            av1_decode := sc.av1_decode || hasExtName exts "VK_KHR_video_decode_av1"
            h264_encode := sc.h264_encode || hasExtName exts "VK_KHR_video_encode_h264"
            h265_encode := sc.h265_encode || hasExtName exts "VK_KHR_video_encode_h265"
            av1_encode := sc.av1_encode } := by
  induction exts with
  | nil =>
    intro sc
    simp only [List.foldlM, hasExtName, Bool.or_false]
    rfl
  | cons e t ih =>
    intro sc
    rw [List.foldlM_cons]
    cases e with
    | none =>
      show List.foldlM codecStep sc t = _
      rw [ih sc]
      simp [hasExtName_cons_none]
    | some n =>
      by_cases hn1 : n = "VK_KHR_video_decode_av1"
      · subst hn1
        rw [codecStep_av1d]
        show List.foldlM codecStep { sc with av1_decode := true } t = _
        rw [ih]
        simp [hasExtName_cons_some_self,
          hasExtName_cons_some_ne "VK_KHR_video_decode_av1" "VK_KHR_video_decode_h264" t
            (by decide),
          hasExtName_cons_some_ne "VK_KHR_video_decode_av1" "VK_KHR_video_decode_h265" t
            (by decide),
          hasExtName_cons_some_ne "VK_KHR_video_decode_av1" "VK_KHR_video_encode_h264" t
            (by decide),
          hasExtName_cons_some_ne "VK_KHR_video_decode_av1" "VK_KHR_video_encode_h265" t
            (by decide)]
      by_cases hn2 : n = "VK_KHR_video_decode_h264"
      · subst hn2
        rw [codecStep_h264d]
        show List.foldlM codecStep { sc with h264_decode := true } t = _
        rw [ih]
        simp [hasExtName_cons_some_self,
          hasExtName_cons_some_ne "VK_KHR_video_decode_h264" "VK_KHR_video_decode_av1" t
            (by decide),
          hasExtName_cons_some_ne "VK_KHR_video_decode_h264" "VK_KHR_video_decode_h265" t
            (by decide),
          hasExtName_cons_some_ne "VK_KHR_video_decode_h264" "VK_KHR_video_encode_h264" t
            (by decide),
          hasExtName_cons_some_ne "VK_KHR_video_decode_h264" "VK_KHR_video_encode_h265" t
            (by decide)]
      by_cases hn3 : n = "VK_KHR_video_decode_h265"
      · subst hn3
        rw [codecStep_h265d]
        show List.foldlM codecStep { sc with h265_decode := true } t = _
        rw [ih]
        simp [hasExtName_cons_some_self,
          hasExtName_cons_some_ne "VK_KHR_video_decode_h265" "VK_KHR_video_decode_av1" t
            (by decide),
          hasExtName_cons_some_ne "VK_KHR_video_decode_h265" "VK_KHR_video_decode_h264" t
            (by decide),
          hasExtName_cons_some_ne "VK_KHR_video_decode_h265" "VK_KHR_video_encode_h264" t
            (by decide),
          hasExtName_cons_some_ne "VK_KHR_video_decode_h265" "VK_KHR_video_encode_h265" t
            (by decide)]
      by_cases hn4 : n = "VK_KHR_video_encode_h264"
      · subst hn4
        rw [codecStep_h264e]
        show List.foldlM codecStep { sc with h264_encode := true } t = _
        rw [ih]
        simp [hasExtName_cons_some_self,
          hasExtName_cons_some_ne "VK_KHR_video_encode_h264" "VK_KHR_video_decode_av1" t
            (by decide),
          hasExtName_cons_some_ne "VK_KHR_video_encode_h264" "VK_KHR_video_decode_h264" t
            (by decide),
          hasExtName_cons_some_ne "VK_KHR_video_encode_h264" "VK_KHR_video_decode_h265" t
            (by decide),
          hasExtName_cons_some_ne "VK_KHR_video_encode_h264" "VK_KHR_video_encode_h265" t
            (by decide)]
      by_cases hn5 : n = "VK_KHR_video_encode_h265"
      · subst hn5
        rw [codecStep_h265e]
        show List.foldlM codecStep { sc with h265_encode := true } t = _
        rw [ih]
        simp [hasExtName_cons_some_self,
          hasExtName_cons_some_ne "VK_KHR_video_encode_h265" "VK_KHR_video_decode_av1" t
            (by decide),
          hasExtName_cons_some_ne "VK_KHR_video_encode_h265" "VK_KHR_video_decode_h264" t
            (by decide),
          hasExtName_cons_some_ne "VK_KHR_video_encode_h265" "VK_KHR_video_decode_h265" t
            (by decide),
          hasExtName_cons_some_ne "VK_KHR_video_encode_h265" "VK_KHR_video_encode_h264" t
            (by decide)]
      have hstep : codecStep sc (some n) = .ok sc := by
        have hl : lookupCodecExtension n = none := by
          rw [lookupCodecExtension_eq]
          simp [hn1, hn2, hn3, hn4, hn5]
        simp [codecStep, hl]
      rw [hstep]
      show List.foldlM codecStep sc t = _
      rw [ih sc]
      simp [hasExtName_cons_some_ne n "VK_KHR_video_decode_av1" t hn1,
        hasExtName_cons_some_ne n "VK_KHR_video_decode_h264" t hn2,
        hasExtName_cons_some_ne n "VK_KHR_video_decode_h265" t hn3,
        hasExtName_cons_some_ne n "VK_KHR_video_encode_h264" t hn4,
        hasExtName_cons_some_ne n "VK_KHR_video_encode_h265" t hn5]

/-! ## Claim C8 -/

/-- Claim C8: the CODEC_EXTENSIONS table is sorted by extension name (under
the bytewise order the binary search uses), and for every list of device
extension names the matching loop sets exactly the documented flag for each
table name present, silently ignores every other name (including invalid
ones), never panics (the VP9-encode unimplemented branch is unreachable),
and never sets the two flags without a table entry. -/
theorem codec_extension_table_sorted_and_matching :
    List.Pairwise (fun a b : CodecExt => strLt a.1 b.1 = true) CODEC_EXTENSIONS
      ∧ ∀ exts : List (Option String),
          computeSupportedCodecs exts = Except.ok (codecsOfExtensions exts) := by
  constructor
  · decide
  · intro exts
    unfold computeSupportedCodecs codecsOfExtensions
    rw [computeCodecs_foldlM]
    rfl

/-! ## Claim C7 -/

/-- Claim C7: the device-matching predicate holds exactly when the
has-primary flag is set and the primary pair equals the target, or the
has-render flag is set and the render pair equals the target; in particular
a primary match at (226,0) holds regardless of the render fields, and a
render-only match at (226,1) holds. -/
theorem device_matching_predicate :
    (∀ (props : DrmProps) (target : DeviceId),
      vulkan_device_is_same_as_drm props target = true ↔
        ((props.has_primary = VK_TRUE ∧ props.primary_major = target.major
            ∧ props.primary_minor = target.minor)
          ∨ (props.has_render = VK_TRUE ∧ props.render_major = target.major
            ∧ props.render_minor = target.minor)))
      ∧ (∀ (hr : Nat) (rmaj rmin : Int),
          vulkan_device_is_same_as_drm ⟨1, 226, 0, hr, rmaj, rmin⟩ ⟨226, 0⟩ = true)
      ∧ vulkan_device_is_same_as_drm ⟨0, 0, 0, 1, 226, 1⟩ ⟨226, 1⟩ = true := by
  refine ⟨?_, ?_, ?_⟩
  · intro props target
    obtain ⟨tmaj, tmin⟩ := target
    simp [vulkan_device_is_same_as_drm, Bool.or_eq_true, Bool.and_eq_true,
      beq_iff_eq, DeviceId.mk.injEq]
  · intro hr rmaj rmin
    simp [vulkan_device_is_same_as_drm, VK_TRUE]
  · decide

/-! ## Claim C3 -/

/-- Validation failure of the context pointer short-circuits every handler
body. -/
theorem with_driver_context_invalid (p : MPtr VADriverContext)
    (h : p.isNull = true ∨ p.aligned = false) :
    ∀ f, with_driver_context p f = invalidParamOutcome p := by
  intro f
  unfold with_driver_context
  rcases h with h | h <;> simp [h]

/-- Claim C3: every entry point installed in the dispatch table returns
InvalidParameter on a null or misaligned DriverContext pointer and performs
no further work (context untouched, no events, no writes). -/
theorem installed_handlers_reject_invalid_context :
    ∀ h ∈ installedHandlerSlots, ∀ (profile : Int) (outA outB : OPtr)
      (p : MPtr VADriverContext), p.isNull = true ∨ p.aligned = false →
        runHandler h profile outA outB p = invalidParamOutcome p := by
  intro h _ profile outA outB p hp
  have hw : ∀ f, with_driver_context p f = invalidParamOutcome p :=
    with_driver_context_invalid p hp
  cases h <;>
    simp only [runHandler, va_terminate, va_query_config_profiles,
      va_query_config_entrypoints, va_get_config_attributes, va_create_config,
      va_destroy_config, va_query_config_attributes, va_create_surfaces,
      va_destroy_surfaces, va_create_context, va_destroy_context, va_create_buffer,
      va_buffer_set_num_elements, va_map_buffer, va_unmap_buffer, va_destroy_buffer,
      va_begin_picture, va_render_picture, va_end_picture, va_sync_surface,
      va_query_surface_status, va_query_image_formats, va_create_image,
      va_derive_image, va_destroy_image, va_set_image_palette, va_get_image,
      va_put_image, va_query_subpicture_formats, va_create_subpicture,
      va_destroy_subpicture, va_set_subpicture_image, va_set_subpicture_chromakey,
      va_set_subpicture_global_alpha, va_associate_subpicture,
      va_deassociate_subpicture, va_query_display_attributes,
      va_get_display_attributes, va_set_display_attributes, hw] <;>
    (try (split_ifs <;> rfl))

theorem installed_handlers_reject_invalid_context_witness :
    runHandler HandlerSlot.terminate 0 okPtr okPtr pNullCtx
      = invalidParamOutcome pNullCtx :=
  installed_handlers_reject_invalid_context HandlerSlot.terminate (by decide)
    0 okPtr okPtr pNullCtx (Or.inl rfl)

/-! ## Claim C9 -/

/-- Claim C9: for a valid DriverContext pointer, va_terminate with an
already-null private-data slot warns and returns success; with a non-null
slot it frees the DriverData exactly once, nulls the slot, and a subsequent
terminate takes the warning path (no double free). -/
theorem terminate_tolerates_null_and_frees_once
    (p : MPtr VADriverContext) (hp : p.isNull = false) (ha : p.aligned = true) :
    (p.val.pDriverData.isNull = true →
      (va_terminate p).status = VA_STATUS_SUCCESS
        ∧ (va_terminate p).events = [Event.warnNullTerminate])
      ∧ (p.val.pDriverData.isNull = false →
        (va_terminate p).status = VA_STATUS_SUCCESS
          ∧ (va_terminate p).events = [Event.freeDriverData]
          ∧ (va_terminate p).ctx.pDriverData.isNull = true
          ∧ (va_terminate { p with val := (va_terminate p).ctx }).status = VA_STATUS_SUCCESS
          ∧ (va_terminate { p with val := (va_terminate p).ctx }).events
              = [Event.warnNullTerminate]) := by
  constructor <;> intro h <;>
    simp [va_terminate, with_driver_context, hp, ha, h, nullDriverDataSlot]

theorem terminate_tolerates_null_and_frees_once_witness :
    (va_terminate pGood).status = VA_STATUS_SUCCESS
      ∧ (va_terminate pGood).events = [Event.freeDriverData]
      ∧ (va_terminate pGood).ctx.pDriverData.isNull = true
      ∧ (va_terminate { pGood with val := (va_terminate pGood).ctx }).status
          = VA_STATUS_SUCCESS
      ∧ (va_terminate { pGood with val := (va_terminate pGood).ctx }).events
          = [Event.warnNullTerminate] :=
  (terminate_tolerates_null_and_frees_once pGood rfl rfl).2 rfl

/-! ## Claim C6 -/

/-- Claim C6 (corrected): with validated pointers and private data, the
capacity check of va_query_config_profiles compares the emitted sequence
length against max_profiles cast to usize (so a negative max_profiles wraps
to a huge bound): above the cast bound it returns OperationFailed and writes
nothing; otherwise it writes the full sequence and its length. -/
theorem query_config_profiles_capacity_check
    (p : MPtr VADriverContext) (profile_list num_profiles : OPtr)
    (hp : p.isNull = false) (ha : p.aligned = true)
    (h1 : profile_list.isNull = false) (h2 : profile_list.aligned = true)
    (h3 : num_profiles.isNull = false) (h4 : num_profiles.aligned = true)
    (hd : p.val.pDriverData.isNull = false) (hda : p.val.pDriverData.aligned = true)
    (hm : p.val.pDriverData.val.magic = DriverData.MAGIC) :
    ((supportedProfilesList p.val.pDriverData.val.vulkan.supported_codecs).length
        > usizeCast p.val.max_profiles →
      (va_query_config_profiles p profile_list num_profiles).status
          = VA_STATUS_ERROR_OPERATION_FAILED
        ∧ (va_query_config_profiles p profile_list num_profiles).writes = [])
      ∧ (¬ (supportedProfilesList p.val.pDriverData.val.vulkan.supported_codecs).length
          > usizeCast p.val.max_profiles →
        (va_query_config_profiles p profile_list num_profiles).status = VA_STATUS_SUCCESS
          ∧ (va_query_config_profiles p profile_list num_profiles).writes
            = [WriteEvt.profiles
                (supportedProfilesList p.val.pDriverData.val.vulkan.supported_codecs),
               WriteEvt.numProfiles
                ((supportedProfilesList p.val.pDriverData.val.vulkan.supported_codecs).length
                  : Int)]) := by
  constructor <;> intro hlen <;>
    simp [va_query_config_profiles, with_driver_context, DriverData.from_ptr,
      VaError.toStatus, hp, ha, h1, h2, h3, h4, hd, hda, hm, hlen]

theorem query_config_profiles_capacity_check_witness :
    (va_query_config_profiles pSmallCap okPtr okPtr).status
        = VA_STATUS_ERROR_OPERATION_FAILED
      ∧ (va_query_config_profiles pSmallCap okPtr okPtr).writes = [] :=
  (query_config_profiles_capacity_check pSmallCap okPtr okPtr
    rfl rfl rfl rfl rfl rfl rfl rfl rfl).1 (by decide)

/-- Counterexample to claim C6 as stated: with max_profiles = -1 (smaller
than the emitted length 3) the handler succeeds and writes, because the
usize cast wraps the negative bound to a huge one. -/
theorem query_config_profiles_negative_capacity_counterexample :
    ctxNegCap.max_profiles
        < ((supportedProfilesList ddH264.val.vulkan.supported_codecs).length : Int)
      ∧ (va_query_config_profiles pNegCap okPtr okPtr).status = VA_STATUS_SUCCESS
      ∧ (va_query_config_profiles pNegCap okPtr okPtr).writes ≠ [] := by
  refine ⟨?_, ?_, ?_⟩ <;> decide

/-! ## Claim C10 -/

/-- Claim C10: va_query_config_profiles rejects null or misaligned output
pointers with InvalidParameter before the driver context is validated (the
check fires for every context argument, with no other work); by contrast,
va_query_config_entrypoints ignores the state of its output pointers
entirely and, once the profile is recognized with some support and the
capacity suffices, performs its writes regardless of those pointers. -/
theorem output_pointer_validation_asymmetry :
    (∀ (p : MPtr VADriverContext) (profile_list num_profiles : OPtr),
      profile_list.isNull = true ∨ profile_list.aligned = false
          ∨ num_profiles.isNull = true ∨ num_profiles.aligned = false →
        va_query_config_profiles p profile_list num_profiles = invalidParamOutcome p)
      ∧ (∀ (p : MPtr VADriverContext) (profile : Int) (a b a2 b2 : OPtr),
          va_query_config_entrypoints p profile a b
            = va_query_config_entrypoints p profile a2 b2)
      ∧ (∀ (p : MPtr VADriverContext) (profile : Int) (a b : OPtr) (d e : Bool),
          p.isNull = false → p.aligned = true →
          p.val.pDriverData.isNull = false → p.val.pDriverData.aligned = true →
          p.val.pDriverData.val.magic = DriverData.MAGIC →
          profileCodecFlags profile p.val.pDriverData.val.vulkan.supported_codecs
            = some (d, e) →
          (d || e) = true →
          ¬ MAX_ENTRYPOINTS > usizeCast p.val.max_entrypoints →
          (va_query_config_entrypoints p profile a b).writes ≠ []) := by
  refine ⟨?_, ?_, ?_⟩
  · intro p profile_list num_profiles h
    unfold va_query_config_profiles
    rcases h with h | h | h | h <;> simp [h]
  · intro p profile a b a2 b2
    rfl
  · intro p profile a b d e hp ha hd hda hm hpf hde hcap
    cases d <;> cases e
    · simp at hde
    all_goals
      simp [va_query_config_entrypoints, with_driver_context, DriverData.from_ptr,
        hp, ha, hd, hda, hm, hpf, hcap]

theorem output_pointer_validation_asymmetry_witness :
    va_query_config_profiles pGood nullOPtr okPtr = invalidParamOutcome pGood
      ∧ (va_query_config_entrypoints pGood VAProfileH264Main nullOPtr nullOPtr).writes ≠ [] :=
  ⟨output_pointer_validation_asymmetry.1 pGood nullOPtr okPtr (Or.inl rfl),
   output_pointer_validation_asymmetry.2.2 pGood VAProfileH264Main nullOPtr nullOPtr
     true false rfl rfl rfl rfl rfl (by decide) rfl (by decide)⟩

/-! ## Claim C2 -/

/-- On every run, either the private-data slot is untouched or init
succeeded. -/
theorem va_driver_init_cases (env : DriverEnv) (p : MPtr VADriverContext) :
    (va_driver_init env p).2.pDriverData = p.val.pDriverData
      ∨ (va_driver_init env p).1 = Except.ok () := by
  simp only [va_driver_init]
  split
  · left; rfl
  split
  · left; rfl
  split
  · left; rfl
  split
  · left; rfl
  · right; rfl

/-- Claim C2 (corrected): whenever va_driver_init returns an error the
private-data slot is left exactly as it was; and on the early
pointer-validation failures (invalid context or vtable pointer) the whole
context is untouched.  (The capacity fields, vendor string, and vtable are
written before device/GPU work, so DRM or Vulkan failures do leave them
modified — see the counterexample.) -/
theorem va_driver_init_error_leaves_private_data_unset :
    (∀ (env : DriverEnv) (p : MPtr VADriverContext) (e : VaError),
      (va_driver_init env p).1 = Except.error e →
        (va_driver_init env p).2.pDriverData = p.val.pDriverData)
      ∧ (∀ (env : DriverEnv) (p : MPtr VADriverContext),
          (p.isNull = true ∨ p.aligned = false ∨ p.val.vtable.isNull = true
            ∨ p.val.vtable.aligned = false) →
          (va_driver_init env p).2 = p.val) := by
  constructor
  · intro env p e h
    rcases va_driver_init_cases env p with hc | hc
    · exact hc
    · rw [h] at hc
      cases hc
  · intro env p h
    by_cases hA : (p.isNull || !p.aligned) = true
    · simp [va_driver_init, hA]
    · have hA1 : p.isNull = false := by
        cases hb : p.isNull <;> simp [hb] at hA ⊢
      have hA2 : p.aligned = true := by
        cases hb : p.aligned <;> simp [hb, hA1] at hA ⊢
      rcases h with h | h | h | h
      · rw [h] at hA1; cases hA1
      · rw [h] at hA2; cases hA2
      · simp [va_driver_init, hA1, hA2, h]
      · simp [va_driver_init, hA1, hA2, h]

theorem va_driver_init_error_private_data_witness :
    (va_driver_init envNoVk pPreInit).2.pDriverData = pPreInit.val.pDriverData :=
  va_driver_init_error_leaves_private_data_unset.1 envNoVk pPreInit
    VaError.InvalidParameter (by decide)

/-- Counterexample to claim C2 as stated: on a DRM-extraction failure the
call errors, yet the capacity fields, vendor string and vtable were already
written — the context is not left as it was before the call. -/
theorem va_driver_init_partial_mutation_counterexample :
    (va_driver_init envNoVk pPreInit).1 = Except.error VaError.InvalidParameter
      ∧ (va_driver_init envNoVk pPreInit).2 ≠ pPreInit.val
      ∧ (va_driver_init envNoVk pPreInit).2.max_profiles = 39
      ∧ pPreInit.val.max_profiles = 0
      ∧ (va_driver_init envNoVk pPreInit).2.str_vendor = some VENDOR := by
  refine ⟨?_, ?_, ?_, ?_, ?_⟩ <;> decide

end VaVk
